import Mathlib

/-!
Shallow embedding of the file-system facade of libfsntfs
(`src/libfsntfs/libfsntfs_file_system.c`).

The facade's callees (the MFT module, the security-descriptor index, the
cluster-block vector, libcerror, libuna) are not under `src/`; they are modelled
either as environment oracles (a record of `Except`-returning results consulted
exactly where the C calls them) or, where the specification pins their behaviour
down, as `Modelled from the spec:` definitions.

Errors: `libcerror_error_set` accumulates messages on one error object, so a
failing call returns a chain of codes, outermost first (`LibcError` list).
Destructor calls (`*_free` of transient objects) and plain allocations
(`memory_allocate_structure`, `libfsntfs_mft_entry_initialize`,
`libfcache_cache_initialize`, `libfsntfs_file_name_values_initialize`) are
modelled as always succeeding; claims do not hinge on allocation failure.
-/

/-- Platform maximum of a signed 64-bit integer (INT64_MAX). -/
def INT64_MAX : Nat := 2 ^ 63 - 1

/-- Platform maximum of a signed int (INT_MAX). -/
def INT_MAX : Nat := 2 ^ 31 - 1

/-- Platform maximum of ssize_t on an LP64 platform (SSIZE_MAX). -/
def SSIZE_MAX : Nat := 2 ^ 63 - 1

/-- Flag bit 0, LIBFSNTFS_FILE_ENTRY_FLAGS_MFT_ONLY: use the supplied MFT blob
literally and do not resolve entry 0's data runs. -/
def LIBFSNTFS_FILE_ENTRY_FLAGS_MFT_ONLY : Nat := 1

/-- MFT entry index of the $Bitmap file (LIBFSNTFS_MFT_ENTRY_INDEX_BITMAP). -/
def LIBFSNTFS_MFT_ENTRY_INDEX_BITMAP : Nat := 6

/-- MFT entry index of the $Secure file (LIBFSNTFS_MFT_ENTRY_INDEX_SECURE). -/
def LIBFSNTFS_MFT_ENTRY_INDEX_SECURE : Nat := 9

/-- Error codes set through `libcerror_error_set`, named after the
LIBCERROR_..._ERROR_... constants the facade uses. -/
inductive LibcError where
  | argumentInvalidValue
  | runtimeValueAlreadySet
  | runtimeValueOutOfBounds
  | runtimeValueExceedsMaximum
  | runtimeInitializeFailed
  | runtimeSetFailed
  | runtimeGetFailed
  | runtimeValueMissing
  | runtimeFinalizeFailed
  | runtimeGeneric
  | ioReadFailed
  deriving DecidableEq, Repr

/-- Chain of error codes on one libcerror error object, outermost (the most
recently set) first. -/
def ErrChain : Type := List LibcError

instance : DecidableEq ErrChain := by
  unfold ErrChain
  infer_instance

instance : Membership LibcError ErrChain := by
  unfold ErrChain
  infer_instance

instance : Repr ErrChain := by
  unfold ErrChain
  infer_instance

/-- The borrowed volume I/O handle (only the fields the facade reads). -/
structure IoHandle where
  mft_entry_size : Nat
  cluster_block_size : Nat
  deriving DecidableEq, Repr

/-- Opaque token standing for a `libfsntfs_mft_attribute_t` owned elsewhere. -/
structure MftAttribute where
  attrId : Nat
  deriving DecidableEq, Repr

/-- The fields of a parsed `libfsntfs_mft_entry_t` the facade reads. -/
structure MftEntry where
  data_attribute : Option MftAttribute
  file_name_attribute_index : Int
  deriving DecidableEq, Repr

/-- The observable state of the `libfsntfs_mft_t` owned by the facade:
the recorded number of MFT entries. -/
structure Mft where
  number_of_mft_entries : Nat
  deriving DecidableEq, Repr

/-- Opaque token standing for a built `libfsntfs_security_descriptor_index_t`. -/
structure SecurityDescriptorIndex where
  sdIndexId : Nat
  deriving DecidableEq, Repr

/-- Opaque token standing for `libfsntfs_security_descriptor_values_t`. -/
structure SecurityDescriptorValues where
  sdValuesId : Nat
  deriving DecidableEq, Repr

/-- Opaque token standing for `libfsntfs_file_name_values_t` after
`libfsntfs_file_name_values_read_from_mft_attribute` filled it. -/
structure FileNameValues where
  fnvId : Nat
  deriving DecidableEq, Repr

/-- The facade state `libfsntfs_file_system_t`: an owned MFT and an owned
security descriptor index, each nullable. -/
structure FileSystem where
  mft : Option Mft
  security_descriptor_index : Option SecurityDescriptorIndex
  deriving DecidableEq, Repr

/-- Modelled from the spec: `libfsntfs_mft_initialize` is not under `src/`.
Per spec section 4.6 step 1 it allocates the MFT object with a stub single-entry
stream and no entry count yet (the count is only recorded in step 5 or by the
MFT-only branch of the facade), and per the spec's boundary behaviour
"read_mft(mft_size=0) fails with OutOfBounds" it rejects a zero MFT size with an
out-of-bounds error. -/
def libfsntfs_mft_initialize (io_handle : IoHandle) (mft_offset : Int)
    (mft_size : Nat) (flags : Nat) : Except ErrChain Mft :=
  if mft_size = 0 then Except.error [LibcError.runtimeValueOutOfBounds]
  else Except.ok { number_of_mft_entries := 0 }

/-- Modelled from the spec: `libfsntfs_mft_get_number_of_entries` is not under
`src/`; it returns the entry count recorded at bootstrap and rejects a NULL
MFT argument. -/
def libfsntfs_mft_get_number_of_entries (mft : Option Mft) : Except ErrChain Nat :=
  match mft with
  | none => Except.error [LibcError.argumentInvalidValue]
  | some m => Except.ok m.number_of_mft_entries

/-- Oracles for the external calls `libfsntfs_file_system_read_mft` makes:
`readMftEntry` is the outcome of `libfsntfs_mft_read_mft_entry` on entry 0
(the parsed entry, or the error chain, for example a corrupt fixup);
`setDataRuns` is the outcome of `libfsntfs_mft_set_data_runs`, which per spec
section 4.6 steps 4-5 resolves entry 0's $DATA run list and yields the entry
count recorded in the MFT. -/
structure ReadMftEnv where
  readMftEntry : Except ErrChain MftEntry
  setDataRuns : MftEntry → Except ErrChain Nat

/-- Lines 283-394 of `libfsntfs_file_system_read_mft`: the bootstrap that runs
once the argument checks passed. Mirrors the C control flow; note that the
`on_error` label frees only the local `mft_entry`, never `file_system->mft`,
so a failure after `libfsntfs_mft_initialize` leaves the MFT field set. -/
def libfsntfs_file_system_read_mft_body (env : ReadMftEnv) (fs : FileSystem)
    (io_handle : IoHandle) (mft_offset : Int) (mft_size : Nat) (flags : Nat) :
    Except ErrChain Unit × Option FileSystem :=
  match libfsntfs_mft_initialize io_handle mft_offset mft_size flags with
  | Except.error es => (Except.error (LibcError.runtimeInitializeFailed :: es), some fs)
  | Except.ok mft0 =>
    let fs1 : FileSystem := { fs with mft := some mft0 }
    match env.readMftEntry with
    | Except.error es => (Except.error (LibcError.ioReadFailed :: es), some fs1)
    | Except.ok mft_entry =>
      if flags &&& LIBFSNTFS_FILE_ENTRY_FLAGS_MFT_ONLY = 0 then
        match env.setDataRuns mft_entry with
        | Except.error es => (Except.error (LibcError.runtimeSetFailed :: es), some fs1)
        | Except.ok n =>
          (Except.ok Unit.unit, some { fs with mft := some { number_of_mft_entries := n } })
      else
        match mft_entry.data_attribute with
        | none => (Except.error [LibcError.runtimeValueMissing], some fs1)
        | some _ =>
          let number_of_mft_entries : Nat := mft_size / io_handle.mft_entry_size
          if number_of_mft_entries > INT_MAX then
            (Except.error [LibcError.runtimeValueOutOfBounds], some fs1)
          else
            (Except.ok Unit.unit,
             some { fs with mft := some { number_of_mft_entries := number_of_mft_entries } })

/-- `libfsntfs_file_system_read_mft` (lines 215-404): the argument checks of
lines 228-282 followed by the bootstrap body. The result pairs the C return
value (ok for 1, an error chain for -1) with the facade state afterwards. -/
def libfsntfs_file_system_read_mft (env : ReadMftEnv) (file_system : Option FileSystem)
    (io_handle : Option IoHandle) (mft_offset : Int) (mft_size : Nat) (flags : Nat) :
    Except ErrChain Unit × Option FileSystem :=
  match file_system with
  | none => (Except.error [LibcError.argumentInvalidValue], none)
  | some fs =>
    if fs.mft.isSome then
      (Except.error [LibcError.runtimeValueAlreadySet], some fs)
    else
      match io_handle with
      | none => (Except.error [LibcError.argumentInvalidValue], some fs)
      | some io =>
        if mft_offset < 0 then
          (Except.error [LibcError.runtimeValueOutOfBounds], some fs)
        else if mft_size > INT64_MAX then
          (Except.error [LibcError.runtimeValueExceedsMaximum], some fs)
        else
          libfsntfs_file_system_read_mft_body env fs io mft_offset mft_size flags

/-- `libfsntfs_file_system_get_number_of_mft_entries` (lines 970-1003). -/
def libfsntfs_file_system_get_number_of_mft_entries (file_system : Option FileSystem) :
    Except ErrChain Nat :=
  match file_system with
  | none => Except.error [LibcError.argumentInvalidValue]
  | some fs =>
    match libfsntfs_mft_get_number_of_entries fs.mft with
    | Except.error es => Except.error (LibcError.runtimeGetFailed :: es)
    | Except.ok n => Except.ok n

/-- Result of `libfsntfs_name_compare_with_utf8_string` (libuna comparison):
-1 on error, otherwise less / equal / greater. -/
inductive NameCompare where
  | err (es : ErrChain)
  | less
  | equal
  | greater
  deriving Repr

/-- Oracles for the external calls `libfsntfs_file_system_read_security_descriptors`
makes, in call order: retrieval of MFT entry 9 (`.ok none` models a NULL entry),
`libfsntfs_mft_entry_get_attribute_by_index` on the entry's recorded $FILE_NAME
attribute index, `libfsntfs_file_name_values_read_from_mft_attribute`, the name
comparison of that name with "$Secure",
`libfsntfs_mft_entry_get_alternate_data_attribute_by_utf8_name` for "$SDS",
`libfsntfs_security_descriptor_index_initialize`, and
`libfsntfs_security_descriptor_index_read_sii_index`. -/
structure SecureEnv where
  getMftEntry9 : Except ErrChain (Option MftEntry)
  getAttributeByIndex : Int → Except ErrChain MftAttribute
  readFileNameValues : MftAttribute → Except ErrChain FileNameValues
  compareWithSecure : FileNameValues → NameCompare
  getAlternateDataAttributeSDS : Except ErrChain MftAttribute
  sdIndexInit : MftAttribute → Except ErrChain SecurityDescriptorIndex
  readSiiIndex : SecurityDescriptorIndex → Except ErrChain Unit

/-- `libfsntfs_file_system_read_security_descriptors` (lines 756-965).
Mirrors the C control flow: the index field is assigned inside the
name-equal branch and the `on_error` label frees it again, so every failing
exit past the already-set check leaves the facade exactly as it entered. -/
def libfsntfs_file_system_read_security_descriptors (env : SecureEnv)
    (file_system : Option FileSystem) :
    Except ErrChain Unit × Option FileSystem :=
  match file_system with
  | none => (Except.error [LibcError.argumentInvalidValue], none)
  | some fs =>
    if fs.security_descriptor_index.isSome then
      (Except.error [LibcError.runtimeValueAlreadySet], some fs)
    else
      match env.getMftEntry9 with
      | Except.error es => (Except.error (LibcError.runtimeGetFailed :: es), some fs)
      | Except.ok none => (Except.error [LibcError.runtimeValueMissing], some fs)
      | Except.ok (some mft_entry) =>
        match env.getAttributeByIndex mft_entry.file_name_attribute_index with
        | Except.error es => (Except.error (LibcError.runtimeGetFailed :: es), some fs)
        | Except.ok mft_attribute =>
          match env.readFileNameValues mft_attribute with
          | Except.error es => (Except.error (LibcError.ioReadFailed :: es), some fs)
          | Except.ok file_name_values =>
            match env.compareWithSecure file_name_values with
            | NameCompare.err es =>
              (Except.error (LibcError.runtimeGeneric :: es), some fs)
            | NameCompare.equal =>
              match env.getAlternateDataAttributeSDS with
              | Except.error es => (Except.error (LibcError.runtimeGetFailed :: es), some fs)
              | Except.ok data_attribute =>
                match env.sdIndexInit data_attribute with
                | Except.error es =>
                  (Except.error (LibcError.runtimeInitializeFailed :: es), some fs)
                | Except.ok sd_index =>
                  match env.readSiiIndex sd_index with
                  | Except.error es =>
                    (Except.error (LibcError.ioReadFailed :: es), some fs)
                  | Except.ok _ =>
                    (Except.ok Unit.unit,
                     some { fs with security_descriptor_index := some sd_index })
            | NameCompare.less => (Except.ok Unit.unit, some fs)
            | NameCompare.greater => (Except.ok Unit.unit, some fs)

/-- Oracle for `libfsntfs_security_descriptor_index_get_entry_by_identifier`:
its result for a given index and identifier is `.ok none` for "not available"
(the C result 0), `.ok (some values)` for found (result 1), or an error chain. -/
structure SdQueryEnv where
  getEntryByIdentifier :
    SecurityDescriptorIndex → Nat → Except ErrChain (Option SecurityDescriptorValues)

/-- `libfsntfs_file_system_get_security_descriptor_values_by_identifier`
(lines 1096-1140): when the facade has no security descriptor index the local
`result` stays 0 and is returned without any external call. -/
def libfsntfs_file_system_get_security_descriptor_values_by_identifier
    (env : SdQueryEnv) (file_system : Option FileSystem)
    (security_descriptor_identifier : Nat) :
    Except ErrChain (Option SecurityDescriptorValues) :=
  match file_system with
  | none => Except.error [LibcError.argumentInvalidValue]
  | some fs =>
    match fs.security_descriptor_index with
    | none => Except.ok none
    | some sd_index =>
      match env.getEntryByIdentifier sd_index security_descriptor_identifier with
      | Except.error es => Except.error (LibcError.runtimeGetFailed :: es)
      | Except.ok v => Except.ok v

/-- Success flags for the component destructors `libfsntfs_file_system_free`
invokes: `libfsntfs_security_descriptor_index_free` and `libfsntfs_mft_free`
(both free and clear their argument even when they report failure). -/
structure FreeEnv where
  sdIndexFreeOk : Bool
  mftFreeOk : Bool

/-- `libfsntfs_file_system_free` (lines 137-210), single-threaded build (the
read/write-lock block is compiled out without HAVE_LIBFSNTFS_MULTI_THREAD_SUPPORT).
The argument is the pointed-to facade pointer (`none` models a NULL
`file_system` argument); returned are the C return value and the pointer's
value afterwards. -/
def libfsntfs_file_system_free (env : FreeEnv)
    (file_system : Option (Option FileSystem)) : Int × Option (Option FileSystem) :=
  match file_system with
  | none => (-1, none)
  | some none => (1, some none)
  | some (some fs) =>
    let result : Int := 1
    let result : Int :=
      if fs.security_descriptor_index.isSome && !env.sdIndexFreeOk then -1 else result
    let result : Int :=
      if fs.mft.isSome && !env.mftFreeOk then -1 else result
    (result, some none)

/-- One cluster block delivered by the cluster-block vector: the `data` buffer
(`none` models a NULL data pointer; bytes are addressed by offset) and the
`data_size` field. -/
structure ClusterBlock where
  data : Option (Nat → Nat)
  data_size : Nat

/-- Little-endian 32-bit read, `byte_stream_copy_to_uint32_little_endian`. -/
def byte_stream_copy_to_uint32_little_endian (data : Nat → Nat) (o : Nat) : Nat :=
  data o % 256
    + data (o + 1) % 256 * 256
    + data (o + 2) % 256 * 65536
    + data (o + 3) % 256 * 16777216

/-- The value bits tested by the inner loop of the bitmap scan: `n` iterations
of testing `value & 1` then shifting `value` right by one, least significant
bit first. -/
def bitsOfWord : Nat → Nat → List Bool
  | _, 0 => []
  | v, n + 1 => decide (v % 2 = 1) :: bitsOfWord (v / 2) n

/-- The bit sequence one cluster block contributes: its `data_size / 4`
little-endian 32-bit words, 32 bits each, in scan order. -/
def clusterBlockBits (data : Nat → Nat) (data_size : Nat) : List Bool :=
  (List.range (data_size / 4)).flatMap
    (fun w => bitsOfWord (byte_stream_copy_to_uint32_little_endian data (4 * w)) 32)

/-- The run-coalescing loop of `libfsntfs_file_system_read_bitmap` over one
cluster block's bits: `d` is `io_handle->cluster_block_size` (the amount
`bitmap_offset` advances per bit), `pos` is the current `bitmap_offset`,
`start` the pending `start_offset` (`none` for -1). A clear bit flushes a
pending `(start_offset, bitmap_offset - start_offset)` range; a set bit opens a
range if none is pending; the end of the block flushes the pending range.
Returns the emitted ranges and the final `bitmap_offset`. -/
def scanBits (d : Nat) : List Bool → Nat → Option Nat → List (Nat × Nat) × Nat
  | [], pos, start =>
    (match start with
     | some s => [(s, pos - s)]
     | none => [], pos)
  | b :: rest, pos, start =>
    if b then
      scanBits d rest (pos + d) (some (start.getD pos))
    else
      match start with
      | some s =>
        let r := scanBits d rest (pos + d) none
        ((s, pos - s) :: r.1, r.2)
      | none => scanBits d rest (pos + d) none

/-- The per-cluster-block loop of `libfsntfs_file_system_read_bitmap`
(lines 534-708): retrieve the block, reject a NULL block, a NULL data buffer,
or a data size that is not a multiple of 4 or exceeds SSIZE_MAX, then scan its
bits; `start_offset` resets to -1 at each block and the pending range is
flushed at the end of each block, while `bitmap_offset` carries across blocks.
Returns the ranges the scan would have appended to the offset list (the append
calls are commented out in the source). -/
def read_bitmap_scan (d : Nat) :
    List (Except ErrChain (Option ClusterBlock)) → Nat →
    Except ErrChain (List (Nat × Nat))
  | [], _ => Except.ok []
  | b :: rest, bitmap_offset =>
    match b with
    | Except.error es => Except.error (LibcError.runtimeGetFailed :: es)
    | Except.ok none => Except.error [LibcError.runtimeValueMissing]
    | Except.ok (some cluster_block) =>
      match cluster_block.data with
      | none => Except.error [LibcError.runtimeValueMissing]
      | some data =>
        if cluster_block.data_size % 4 ≠ 0 ∨ cluster_block.data_size > SSIZE_MAX then
          Except.error [LibcError.runtimeValueOutOfBounds]
        else
          let r := scanBits d (clusterBlockBits data cluster_block.data_size)
                     bitmap_offset none
          match read_bitmap_scan d rest r.2 with
          | Except.error es => Except.error es
          | Except.ok ranges => Except.ok (r.1 ++ ranges)

/-- Oracles for the external calls `libfsntfs_file_system_read_bitmap` makes:
retrieval of MFT entry 6, `libfsntfs_cluster_block_vector_initialize`,
`libfdata_vector_get_number_of_elements`, and the per-index outcomes of
`libfdata_vector_get_element_value_by_index` (`.ok none` models a NULL
cluster block); the number of cluster blocks is `blocks.length`. -/
structure BitmapEnv where
  getMftEntry6 : Except ErrChain (Option MftEntry)
  vectorInit : Except ErrChain Unit
  getNumberOfElements : Except ErrChain Unit
  blocks : List (Except ErrChain (Option ClusterBlock))

/-- `libfsntfs_file_system_read_bitmap` (lines 409-751). The function never
assigns to any field of `file_system`; the scanned ranges are computed and
dropped (the offset-list append calls are commented out), so the facade state
afterwards always equals the state before. -/
def libfsntfs_file_system_read_bitmap (env : BitmapEnv) (file_system : Option FileSystem)
    (io_handle : Option IoHandle) : Except ErrChain Unit × Option FileSystem :=
  match file_system with
  | none => (Except.error [LibcError.argumentInvalidValue], none)
  | some fs =>
    match io_handle with
    | none => (Except.error [LibcError.argumentInvalidValue], some fs)
    | some io =>
      match env.getMftEntry6 with
      | Except.error es => (Except.error (LibcError.runtimeGetFailed :: es), some fs)
      | Except.ok none => (Except.error [LibcError.runtimeValueMissing], some fs)
      | Except.ok (some mft_entry) =>
        match mft_entry.data_attribute with
        | none => (Except.error [LibcError.runtimeValueMissing], some fs)
        | some _ =>
          match env.vectorInit with
          | Except.error es =>
            (Except.error (LibcError.runtimeInitializeFailed :: es), some fs)
          | Except.ok _ =>
            match env.getNumberOfElements with
            | Except.error es => (Except.error (LibcError.runtimeGetFailed :: es), some fs)
            | Except.ok _ =>
              match read_bitmap_scan io.cluster_block_size env.blocks 0 with
              | Except.error es => (Except.error es, some fs)
              | Except.ok _ranges => (Except.ok Unit.unit, some fs)

/-- Claim C2: on a facade whose MFT is already set, and on any call with a
negative MFT offset or an MFT size above INT64_MAX, `read_mft` returns an error
and leaves the facade untouched (no bootstrap); conversely, with no MFT yet, a
non-negative offset and a size within the maximum, all three precondition
checks pass and the call proceeds to the bootstrap body. -/
theorem claim_C2_read_mft_precondition_checks (env : ReadMftEnv) (fs : FileSystem)
    (io : Option IoHandle) (io' : IoHandle) (mft_offset : Int) (mft_size : Nat)
    (flags : Nat) :
    (∀ m, fs.mft = some m →
      libfsntfs_file_system_read_mft env (some fs) io mft_offset mft_size flags =
        (Except.error [LibcError.runtimeValueAlreadySet], some fs)) ∧
    (fs.mft = none → (mft_offset < 0 ∨ mft_size > INT64_MAX) →
      ∃ es, libfsntfs_file_system_read_mft env (some fs) (some io') mft_offset mft_size flags =
        (Except.error es, some fs)) ∧
    (fs.mft = none → 0 ≤ mft_offset → mft_size ≤ INT64_MAX →
      libfsntfs_file_system_read_mft env (some fs) (some io') mft_offset mft_size flags =
        libfsntfs_file_system_read_mft_body env fs io' mft_offset mft_size flags) := by
  refine ⟨?_, ?_, ?_⟩
  · intro m hm
    cases io <;> simp [libfsntfs_file_system_read_mft, hm]
  · intro hm hbad
    by_cases hlt : mft_offset < 0
    · exact ⟨[LibcError.runtimeValueOutOfBounds],
        by simp [libfsntfs_file_system_read_mft, hm, hlt]⟩
    · have hsz : mft_size > INT64_MAX := by
        rcases hbad with h | h
        · exact absurd h hlt
        · exact h
      exact ⟨[LibcError.runtimeValueExceedsMaximum],
        by simp [libfsntfs_file_system_read_mft, hm, hlt, hsz]⟩
  · intro hm hoff hsz
    have hlt : ¬ mft_offset < 0 := by omega
    simp [libfsntfs_file_system_read_mft, hm, hlt, Nat.not_lt.mpr hsz]

/-- Witness for C2 at concrete inputs: an already-set facade, a negative
offset, an oversized size, and a fully valid call. -/
theorem claim_C2_read_mft_precondition_checks_witness :
    (libfsntfs_file_system_read_mft ⟨Except.ok ⟨none, 0⟩, fun _ => Except.ok 0⟩
        (some ⟨some ⟨7⟩, none⟩) (some ⟨1024, 4096⟩) 0 2048 0 =
      (Except.error [LibcError.runtimeValueAlreadySet], some ⟨some ⟨7⟩, none⟩)) ∧
    (∃ es, libfsntfs_file_system_read_mft ⟨Except.ok ⟨none, 0⟩, fun _ => Except.ok 0⟩
        (some ⟨none, none⟩) (some ⟨1024, 4096⟩) (-1) 2048 0 =
      (Except.error es, some ⟨none, none⟩)) ∧
    (libfsntfs_file_system_read_mft ⟨Except.ok ⟨none, 0⟩, fun _ => Except.ok 0⟩
        (some ⟨none, none⟩) (some ⟨1024, 4096⟩) 0 2048 0 =
      libfsntfs_file_system_read_mft_body ⟨Except.ok ⟨none, 0⟩, fun _ => Except.ok 0⟩
        ⟨none, none⟩ ⟨1024, 4096⟩ 0 2048 0) := by
  refine ⟨?_, ?_, ?_⟩
  · exact (claim_C2_read_mft_precondition_checks ⟨Except.ok ⟨none, 0⟩, fun _ => Except.ok 0⟩
      ⟨some ⟨7⟩, none⟩ (some ⟨1024, 4096⟩) ⟨1024, 4096⟩ 0 2048 0).1 ⟨7⟩ rfl
  · exact (claim_C2_read_mft_precondition_checks ⟨Except.ok ⟨none, 0⟩, fun _ => Except.ok 0⟩
      ⟨none, none⟩ (some ⟨1024, 4096⟩) ⟨1024, 4096⟩ (-1) 2048 0).2.1 rfl (Or.inl (by decide))
  · exact (claim_C2_read_mft_precondition_checks ⟨Except.ok ⟨none, 0⟩, fun _ => Except.ok 0⟩
      ⟨none, none⟩ (some ⟨1024, 4096⟩) ⟨1024, 4096⟩ 0 2048 0).2.2 rfl (by decide) (by decide)

/-- Claim C3: calling `read_mft` with `mft_size = 0` and otherwise valid
arguments fails, with the out-of-bounds code in the error chain (set by the
modelled `libfsntfs_mft_initialize`, then wrapped by the facade), and the
facade's MFT stays unset. -/
theorem claim_C3_read_mft_size_zero (env : ReadMftEnv) (fs : FileSystem)
    (io : IoHandle) (mft_offset : Int) (flags : Nat)
    (hm : fs.mft = none) (hoff : 0 ≤ mft_offset) :
    ∃ es, libfsntfs_file_system_read_mft env (some fs) (some io) mft_offset 0 flags =
        (Except.error es, some fs) ∧ LibcError.runtimeValueOutOfBounds ∈ es := by
  have hlt : ¬ mft_offset < 0 := by omega
  refine ⟨[LibcError.runtimeInitializeFailed, LibcError.runtimeValueOutOfBounds], ?_, ?_⟩
  · simp [libfsntfs_file_system_read_mft, libfsntfs_file_system_read_mft_body,
      libfsntfs_mft_initialize, hm, hlt, INT64_MAX]
  · simp [ErrChain, List.mem_cons]

/-- Witness for C3 at a concrete input. -/
theorem claim_C3_read_mft_size_zero_witness :
    ∃ es, libfsntfs_file_system_read_mft ⟨Except.ok ⟨none, 0⟩, fun _ => Except.ok 0⟩
        (some ⟨none, none⟩) (some ⟨1024, 4096⟩) 0 0 0 =
      (Except.error es, some ⟨none, none⟩) ∧ LibcError.runtimeValueOutOfBounds ∈ es :=
  claim_C3_read_mft_size_zero ⟨Except.ok ⟨none, 0⟩, fun _ => Except.ok 0⟩
    ⟨none, none⟩ ⟨1024, 4096⟩ 0 0 rfl (by decide)

/-- Claim C1 (counterexample): entry 0 fails to read (for example a corrupt
fixup), the call errors — yet the facade's MFT field is no longer as before
(it holds the freshly allocated MFT), and a second `read_mft` IS rejected as
already-set, contradicting the claim. -/
theorem claim_C1_counterexample :
    (libfsntfs_file_system_read_mft
        ⟨Except.error [LibcError.ioReadFailed], fun _ => Except.ok 0⟩
        (some ⟨none, none⟩) (some ⟨1024, 4096⟩) 0 1024 0 =
      (Except.error [LibcError.ioReadFailed, LibcError.ioReadFailed],
       some ⟨some ⟨0⟩, none⟩)) ∧
    some (⟨some ⟨0⟩, none⟩ : FileSystem) ≠ some (⟨none, none⟩ : FileSystem) ∧
    (libfsntfs_file_system_read_mft
        ⟨Except.error [LibcError.ioReadFailed], fun _ => Except.ok 0⟩
        (some ⟨some ⟨0⟩, none⟩) (some ⟨1024, 4096⟩) 0 1024 0 =
      (Except.error [LibcError.runtimeValueAlreadySet], some ⟨some ⟨0⟩, none⟩)) := by
  refine ⟨?_, by simp, ?_⟩
  · simp [libfsntfs_file_system_read_mft, libfsntfs_file_system_read_mft_body,
      libfsntfs_mft_initialize, INT64_MAX]
  · simp [libfsntfs_file_system_read_mft]

/-- Claim C1 (amended): if reading MFT entry 0 fails, `read_mft` returns an
error and `number_of_mft_entries` afterwards reports zero, but the facade's
MFT field is left set to the freshly allocated (entry-count-zero) MFT — the
error path frees only the transient entry — so a later `read_mft` is rejected
as already-set. -/
theorem claim_C1_read_mft_entry0_failure (env : ReadMftEnv) (fs : FileSystem)
    (io : IoHandle) (mft_offset : Int) (mft_size : Nat) (flags : Nat) (es : ErrChain)
    (hm : fs.mft = none) (hoff : 0 ≤ mft_offset) (hsz0 : mft_size ≠ 0)
    (hszmax : mft_size ≤ INT64_MAX)
    (hread : env.readMftEntry = Except.error es) :
    (libfsntfs_file_system_read_mft env (some fs) (some io) mft_offset mft_size flags =
      (Except.error (LibcError.ioReadFailed :: es),
       some { fs with mft := some ⟨0⟩ })) ∧
    (libfsntfs_file_system_get_number_of_mft_entries
       (some { fs with mft := some ⟨0⟩ }) = Except.ok 0) ∧
    (∀ env' : ReadMftEnv,
      libfsntfs_file_system_read_mft env' (some { fs with mft := some ⟨0⟩ })
          (some io) mft_offset mft_size flags =
        (Except.error [LibcError.runtimeValueAlreadySet],
         some { fs with mft := some ⟨0⟩ })) := by
  have hlt : ¬ mft_offset < 0 := by omega
  refine ⟨?_, ?_, ?_⟩
  · simp [libfsntfs_file_system_read_mft, libfsntfs_file_system_read_mft_body,
      libfsntfs_mft_initialize, hm, hlt, Nat.not_lt.mpr hszmax, hsz0, hread]
  · simp [libfsntfs_file_system_get_number_of_mft_entries,
      libfsntfs_mft_get_number_of_entries]
  · intro env'
    simp [libfsntfs_file_system_read_mft]

/-- Witness for C1's amended theorem at a concrete input. -/
theorem claim_C1_read_mft_entry0_failure_witness :
    (libfsntfs_file_system_read_mft
        ⟨Except.error [LibcError.runtimeValueOutOfBounds], fun _ => Except.ok 0⟩
        (some ⟨none, none⟩) (some ⟨1024, 4096⟩) 16384 2048 0 =
      (Except.error [LibcError.ioReadFailed, LibcError.runtimeValueOutOfBounds],
       some ⟨some ⟨0⟩, none⟩)) ∧
    (libfsntfs_file_system_get_number_of_mft_entries (some ⟨some ⟨0⟩, none⟩) =
      Except.ok 0) ∧
    (∀ env' : ReadMftEnv,
      libfsntfs_file_system_read_mft env' (some ⟨some ⟨0⟩, none⟩)
          (some ⟨1024, 4096⟩) 16384 2048 0 =
        (Except.error [LibcError.runtimeValueAlreadySet], some ⟨some ⟨0⟩, none⟩)) :=
  claim_C1_read_mft_entry0_failure
    ⟨Except.error [LibcError.runtimeValueOutOfBounds], fun _ => Except.ok 0⟩
    ⟨none, none⟩ ⟨1024, 4096⟩ 16384 2048 0 [LibcError.runtimeValueOutOfBounds]
    rfl (by decide) (by decide) (by decide) rfl

/-- Claim C4: when the MFT_ONLY flag is set and `read_mft` succeeds, the
recorded number of MFT entries is `mft_size / mft_entry_size` (integer
division) and the result does not depend on the set-data-runs oracle (entry 0's
data runs are not resolved); when the flag is clear, the recorded count is the
one produced by `libfsntfs_mft_set_data_runs` from entry 0's $DATA run list. -/
theorem claim_C4_read_mft_mft_only_flag (env : ReadMftEnv) (fs : FileSystem)
    (io : IoHandle) (mft_offset : Int) (mft_size : Nat) (flags : Nat) (entry : MftEntry)
    (hm : fs.mft = none) (hoff : 0 ≤ mft_offset) (hsz0 : mft_size ≠ 0)
    (hszmax : mft_size ≤ INT64_MAX)
    (hread : env.readMftEntry = Except.ok entry) :
    (flags &&& LIBFSNTFS_FILE_ENTRY_FLAGS_MFT_ONLY ≠ 0 →
      entry.data_attribute.isSome →
      mft_size / io.mft_entry_size ≤ INT_MAX →
      (libfsntfs_file_system_read_mft env (some fs) (some io) mft_offset mft_size flags =
        (Except.ok Unit.unit,
         some { fs with mft := some ⟨mft_size / io.mft_entry_size⟩ }) ∧
       ∀ g, libfsntfs_file_system_read_mft ⟨env.readMftEntry, g⟩ (some fs) (some io)
              mft_offset mft_size flags =
            libfsntfs_file_system_read_mft env (some fs) (some io)
              mft_offset mft_size flags)) ∧
    (flags &&& LIBFSNTFS_FILE_ENTRY_FLAGS_MFT_ONLY = 0 →
      ∀ n, env.setDataRuns entry = Except.ok n →
        libfsntfs_file_system_read_mft env (some fs) (some io) mft_offset mft_size flags =
          (Except.ok Unit.unit, some { fs with mft := some ⟨n⟩ })) := by
  have hlt : ¬ mft_offset < 0 := by omega
  constructor
  · intro hflag hdata hcount
    obtain ⟨a, ha⟩ := Option.isSome_iff_exists.mp hdata
    constructor
    · simp [libfsntfs_file_system_read_mft, libfsntfs_file_system_read_mft_body,
        libfsntfs_mft_initialize, hm, hlt, Nat.not_lt.mpr hszmax, hsz0, hread, hflag,
        ha, Nat.not_lt.mpr hcount]
    · intro g
      simp [libfsntfs_file_system_read_mft, libfsntfs_file_system_read_mft_body,
        libfsntfs_mft_initialize, hm, hlt, Nat.not_lt.mpr hszmax, hsz0, hread, hflag, ha]
  · intro hflag n hruns
    simp [libfsntfs_file_system_read_mft, libfsntfs_file_system_read_mft_body,
      libfsntfs_mft_initialize, hm, hlt, Nat.not_lt.mpr hszmax, hsz0, hread, hflag, hruns]

/-- Witness for C4 at concrete inputs: one MFT-only call (flag = 1, blob of 16
entries of 1024 bytes) and one normal call whose set-data-runs oracle reports
24 entries. -/
theorem claim_C4_read_mft_mft_only_flag_witness :
    (libfsntfs_file_system_read_mft
        ⟨Except.ok ⟨some ⟨3⟩, 1⟩, fun _ => Except.ok 24⟩
        (some ⟨none, none⟩) (some ⟨1024, 4096⟩) 16384 16384 1 =
      (Except.ok Unit.unit, some ⟨some ⟨16⟩, none⟩)) ∧
    (∀ g, libfsntfs_file_system_read_mft ⟨Except.ok ⟨some ⟨3⟩, 1⟩, g⟩
            (some ⟨none, none⟩) (some ⟨1024, 4096⟩) 16384 16384 1 =
          libfsntfs_file_system_read_mft
            ⟨Except.ok ⟨some ⟨3⟩, 1⟩, fun _ => Except.ok 24⟩
            (some ⟨none, none⟩) (some ⟨1024, 4096⟩) 16384 16384 1) ∧
    (libfsntfs_file_system_read_mft
        ⟨Except.ok ⟨some ⟨3⟩, 1⟩, fun _ => Except.ok 24⟩
        (some ⟨none, none⟩) (some ⟨1024, 4096⟩) 16384 16384 0 =
      (Except.ok Unit.unit, some ⟨some ⟨24⟩, none⟩)) := by
  have h1 := (claim_C4_read_mft_mft_only_flag
    ⟨Except.ok ⟨some ⟨3⟩, 1⟩, fun _ => Except.ok 24⟩ ⟨none, none⟩ ⟨1024, 4096⟩
    16384 16384 1 ⟨some ⟨3⟩, 1⟩ rfl (by decide) (by decide) (by decide) rfl).1
    (by decide) (by decide) (by decide)
  have h2 := (claim_C4_read_mft_mft_only_flag
    ⟨Except.ok ⟨some ⟨3⟩, 1⟩, fun _ => Except.ok 24⟩ ⟨none, none⟩ ⟨1024, 4096⟩
    16384 16384 0 ⟨some ⟨3⟩, 1⟩ rfl (by decide) (by decide) (by decide) rfl).2
    (by decide) 24 rfl
  exact ⟨h1.1, h1.2, h2⟩

/-- Claim C9: in MFT-only mode, when entry 0 parses but has no unnamed $DATA
attribute, `read_mft` fails with the missing-value error, even though the
set-data-runs oracle is never consulted in this mode (the result is
independent of it). -/
theorem claim_C9_read_mft_mft_only_missing_data (env : ReadMftEnv) (fs : FileSystem)
    (io : IoHandle) (mft_offset : Int) (mft_size : Nat) (flags : Nat) (entry : MftEntry)
    (hm : fs.mft = none) (hoff : 0 ≤ mft_offset) (hsz0 : mft_size ≠ 0)
    (hszmax : mft_size ≤ INT64_MAX)
    (hflag : flags &&& LIBFSNTFS_FILE_ENTRY_FLAGS_MFT_ONLY ≠ 0)
    (hread : env.readMftEntry = Except.ok entry)
    (hdata : entry.data_attribute = none) :
    (libfsntfs_file_system_read_mft env (some fs) (some io) mft_offset mft_size flags =
      (Except.error [LibcError.runtimeValueMissing],
       some { fs with mft := some ⟨0⟩ })) ∧
    (∀ g, libfsntfs_file_system_read_mft ⟨env.readMftEntry, g⟩ (some fs) (some io)
            mft_offset mft_size flags =
          libfsntfs_file_system_read_mft env (some fs) (some io)
            mft_offset mft_size flags) := by
  have hlt : ¬ mft_offset < 0 := by omega
  constructor
  · simp [libfsntfs_file_system_read_mft, libfsntfs_file_system_read_mft_body,
      libfsntfs_mft_initialize, hm, hlt, Nat.not_lt.mpr hszmax, hsz0, hread, hflag, hdata]
  · intro g
    simp [libfsntfs_file_system_read_mft, libfsntfs_file_system_read_mft_body,
      libfsntfs_mft_initialize, hm, hlt, Nat.not_lt.mpr hszmax, hsz0, hread, hflag, hdata]

/-- Witness for C9 at a concrete input: an MFT-only open whose entry 0 has no
$DATA attribute. -/
theorem claim_C9_read_mft_mft_only_missing_data_witness :
    (libfsntfs_file_system_read_mft ⟨Except.ok ⟨none, 1⟩, fun _ => Except.ok 24⟩
        (some ⟨none, none⟩) (some ⟨1024, 4096⟩) 0 16384 1 =
      (Except.error [LibcError.runtimeValueMissing], some ⟨some ⟨0⟩, none⟩)) ∧
    (∀ g, libfsntfs_file_system_read_mft ⟨Except.ok ⟨none, 1⟩, g⟩
            (some ⟨none, none⟩) (some ⟨1024, 4096⟩) 0 16384 1 =
          libfsntfs_file_system_read_mft ⟨Except.ok ⟨none, 1⟩, fun _ => Except.ok 24⟩
            (some ⟨none, none⟩) (some ⟨1024, 4096⟩) 0 16384 1) :=
  claim_C9_read_mft_mft_only_missing_data
    ⟨Except.ok ⟨none, 1⟩, fun _ => Except.ok 24⟩ ⟨none, none⟩ ⟨1024, 4096⟩
    0 16384 1 ⟨none, 1⟩ rfl (by decide) (by decide) (by decide) (by decide) rfl rfl

/-- Claim C5: when MFT entry 9's $FILE_NAME name does not compare equal to
"$Secure", `read_security_descriptors` succeeds leaving the index absent, and
every subsequent lookup by identifier returns the not-found result (the C
result 0, here `.ok none`) for any identifier and any lookup oracle — the
I/O handle is never consulted. -/
theorem claim_C5_read_security_descriptors_no_secure (env : SecureEnv)
    (fs : FileSystem) (entry : MftEntry) (attr : MftAttribute) (fnv : FileNameValues)
    (hidx : fs.security_descriptor_index = none)
    (h9 : env.getMftEntry9 = Except.ok (some entry))
    (hattr : env.getAttributeByIndex entry.file_name_attribute_index = Except.ok attr)
    (hfnv : env.readFileNameValues attr = Except.ok fnv)
    (hcmp : env.compareWithSecure fnv = NameCompare.less ∨
            env.compareWithSecure fnv = NameCompare.greater) :
    (libfsntfs_file_system_read_security_descriptors env (some fs) =
      (Except.ok Unit.unit, some fs)) ∧
    (∀ (qenv : SdQueryEnv) (sd_id : Nat),
      libfsntfs_file_system_get_security_descriptor_values_by_identifier qenv
          (some fs) sd_id = Except.ok none) := by
  constructor
  · rcases hcmp with hc | hc <;>
      simp [libfsntfs_file_system_read_security_descriptors, hidx, h9, hattr, hfnv, hc]
  · intro qenv sd_id
    simp [libfsntfs_file_system_get_security_descriptor_values_by_identifier, hidx]

/-- Witness for C5 at a concrete input: a legacy volume whose entry 9 name
compares less than "$Secure". -/
theorem claim_C5_read_security_descriptors_no_secure_witness :
    (libfsntfs_file_system_read_security_descriptors
        ⟨Except.ok (some ⟨none, 2⟩), fun _ => Except.ok ⟨1⟩, fun _ => Except.ok ⟨1⟩,
         fun _ => NameCompare.less, Except.ok ⟨2⟩, fun _ => Except.ok ⟨9⟩,
         fun _ => Except.ok Unit.unit⟩
        (some ⟨some ⟨16⟩, none⟩) =
      (Except.ok Unit.unit, some ⟨some ⟨16⟩, none⟩)) ∧
    (∀ (qenv : SdQueryEnv) (sd_id : Nat),
      libfsntfs_file_system_get_security_descriptor_values_by_identifier qenv
          (some ⟨some ⟨16⟩, none⟩) sd_id = Except.ok none) :=
  claim_C5_read_security_descriptors_no_secure
    ⟨Except.ok (some ⟨none, 2⟩), fun _ => Except.ok ⟨1⟩, fun _ => Except.ok ⟨1⟩,
     fun _ => NameCompare.less, Except.ok ⟨2⟩, fun _ => Except.ok ⟨9⟩,
     fun _ => Except.ok Unit.unit⟩
    ⟨some ⟨16⟩, none⟩ ⟨none, 2⟩ ⟨1⟩ ⟨1⟩ rfl rfl rfl rfl (Or.inl rfl)

/-- Claim C8 (counterexample): the claim fails twice on the code. First, on a
facade whose index is already set the call FAILS (already-set) yet leaves the
index set, refuting "for every facade on which read_security_descriptors
fails, the index is NULL afterwards". Second, on a legacy volume (name not
"$Secure") the first call succeeds without installing an index, and a second
call succeeds again rather than failing with already-set, refuting "a second
call after a successful one fails with an already-set error". -/
theorem claim_C8_counterexample :
    (libfsntfs_file_system_read_security_descriptors
        ⟨Except.ok (some ⟨none, 2⟩), fun _ => Except.ok ⟨1⟩, fun _ => Except.ok ⟨1⟩,
         fun _ => NameCompare.less, Except.ok ⟨2⟩, fun _ => Except.ok ⟨9⟩,
         fun _ => Except.ok Unit.unit⟩
        (some ⟨none, some ⟨5⟩⟩) =
      (Except.error [LibcError.runtimeValueAlreadySet], some ⟨none, some ⟨5⟩⟩)) ∧
    (⟨none, some ⟨5⟩⟩ : FileSystem).security_descriptor_index ≠ none ∧
    (libfsntfs_file_system_read_security_descriptors
        ⟨Except.ok (some ⟨none, 2⟩), fun _ => Except.ok ⟨1⟩, fun _ => Except.ok ⟨1⟩,
         fun _ => NameCompare.less, Except.ok ⟨2⟩, fun _ => Except.ok ⟨9⟩,
         fun _ => Except.ok Unit.unit⟩
        (some ⟨none, none⟩) =
      (Except.ok Unit.unit, some ⟨none, none⟩)) ∧
    (libfsntfs_file_system_read_security_descriptors
        ⟨Except.ok (some ⟨none, 2⟩), fun _ => Except.ok ⟨1⟩, fun _ => Except.ok ⟨1⟩,
         fun _ => NameCompare.less, Except.ok ⟨2⟩, fun _ => Except.ok ⟨9⟩,
         fun _ => Except.ok Unit.unit⟩
        (some ⟨none, none⟩)).1 ≠
      Except.error [LibcError.runtimeValueAlreadySet] := by
  refine ⟨?_, by simp, ?_, ?_⟩ <;>
    simp [libfsntfs_file_system_read_security_descriptors]

/-- Claim C8 (amended): for every facade whose index is unset on entry, a
failing `read_security_descriptors` leaves the index unset — the error path
releases any partially built index, so the whole facade state is exactly as
before and a subsequent call is not rejected as already-set; and any call on a
facade whose index IS set (in particular a second call after a successful call
that installed the index) fails with the already-set error and changes
nothing. -/
theorem claim_C8_read_security_descriptors_error_path (env : SecureEnv) :
    (∀ (fs : FileSystem) (es : ErrChain) (r : Option FileSystem),
      fs.security_descriptor_index = none →
      libfsntfs_file_system_read_security_descriptors env (some fs) =
        (Except.error es, r) →
      r = some fs) ∧
    (∀ fs : FileSystem, fs.security_descriptor_index.isSome →
      libfsntfs_file_system_read_security_descriptors env (some fs) =
        (Except.error [LibcError.runtimeValueAlreadySet], some fs)) := by
  constructor
  · intro fs es r h heq
    simp only [libfsntfs_file_system_read_security_descriptors, h,
      Option.isSome_none, Bool.false_eq_true, if_false] at heq
    repeat' split at heq
    all_goals
      first
        | (injection heq with h1 h2; exact h2.symm)
        | (injection heq with h1 h2; exact absurd h1 (by simp))
  · intro fs h
    simp [libfsntfs_file_system_read_security_descriptors, h]

/-- Witness for C8's amended theorem at concrete inputs: a failing call (the
$SII read fails) that leaves the facade untouched, and a call on a facade
whose index is set. -/
theorem claim_C8_read_security_descriptors_error_path_witness :
    ((libfsntfs_file_system_read_security_descriptors
        ⟨Except.ok (some ⟨none, 2⟩), fun _ => Except.ok ⟨1⟩, fun _ => Except.ok ⟨1⟩,
         fun _ => NameCompare.equal, Except.ok ⟨2⟩, fun _ => Except.ok ⟨9⟩,
         fun _ => Except.error [LibcError.ioReadFailed]⟩
        (some ⟨some ⟨16⟩, none⟩)).2 = some ⟨some ⟨16⟩, none⟩) ∧
    (libfsntfs_file_system_read_security_descriptors
        ⟨Except.ok (some ⟨none, 2⟩), fun _ => Except.ok ⟨1⟩, fun _ => Except.ok ⟨1⟩,
         fun _ => NameCompare.equal, Except.ok ⟨2⟩, fun _ => Except.ok ⟨9⟩,
         fun _ => Except.error [LibcError.ioReadFailed]⟩
        (some ⟨some ⟨16⟩, some ⟨9⟩⟩) =
      (Except.error [LibcError.runtimeValueAlreadySet], some ⟨some ⟨16⟩, some ⟨9⟩⟩)) := by
  constructor
  · exact (claim_C8_read_security_descriptors_error_path
      ⟨Except.ok (some ⟨none, 2⟩), fun _ => Except.ok ⟨1⟩, fun _ => Except.ok ⟨1⟩,
       fun _ => NameCompare.equal, Except.ok ⟨2⟩, fun _ => Except.ok ⟨9⟩,
       fun _ => Except.error [LibcError.ioReadFailed]⟩).1
      ⟨some ⟨16⟩, none⟩ [LibcError.ioReadFailed, LibcError.ioReadFailed]
      (some ⟨some ⟨16⟩, none⟩) rfl rfl
  · exact (claim_C8_read_security_descriptors_error_path
      ⟨Except.ok (some ⟨none, 2⟩), fun _ => Except.ok ⟨1⟩, fun _ => Except.ok ⟨1⟩,
       fun _ => NameCompare.equal, Except.ok ⟨2⟩, fun _ => Except.ok ⟨9⟩,
       fun _ => Except.error [LibcError.ioReadFailed]⟩).2
      ⟨some ⟨16⟩, some ⟨9⟩⟩ rfl

/-- Claim C10: freeing is idempotent at the public interface: on a pointer
whose facade value is already NULL, free returns 1 and leaves it NULL; a NULL
pointer argument is rejected with -1; and for any non-NULL pointer, calling
free twice leaves the same (NULL) value as calling it once, the second call
returning success. -/
theorem claim_C10_free_idempotent (env : FreeEnv) (p : Option (Option FileSystem))
    (fs : Option FileSystem) (hp : p = some fs) :
    (libfsntfs_file_system_free env (some none) = (1, some none)) ∧
    (libfsntfs_file_system_free env none = (-1, none)) ∧
    (libfsntfs_file_system_free env (libfsntfs_file_system_free env p).2 =
      (1, some none)) ∧
    ((libfsntfs_file_system_free env (libfsntfs_file_system_free env p).2).2 =
      (libfsntfs_file_system_free env p).2) := by
  subst hp
  cases fs <;> simp [libfsntfs_file_system_free]

/-- Witness for C10 at a concrete input: a live facade holding an MFT and an
index, whose destructors succeed. -/
theorem claim_C10_free_idempotent_witness :
    (libfsntfs_file_system_free ⟨true, true⟩ (some none) = (1, some none)) ∧
    (libfsntfs_file_system_free ⟨true, true⟩ none = (-1, none)) ∧
    (libfsntfs_file_system_free ⟨true, true⟩
        (libfsntfs_file_system_free ⟨true, true⟩
          (some (some ⟨some ⟨3⟩, some ⟨4⟩⟩))).2 = (1, some none)) ∧
    ((libfsntfs_file_system_free ⟨true, true⟩
        (libfsntfs_file_system_free ⟨true, true⟩
          (some (some ⟨some ⟨3⟩, some ⟨4⟩⟩))).2).2 =
      (libfsntfs_file_system_free ⟨true, true⟩ (some (some ⟨some ⟨3⟩, some ⟨4⟩⟩))).2) :=
  claim_C10_free_idempotent ⟨true, true⟩ (some (some ⟨some ⟨3⟩, some ⟨4⟩⟩))
    (some ⟨some ⟨3⟩, some ⟨4⟩⟩) rfl

/-- A list of (start, size) ranges covers a byte offset when some range
contains it. -/
def coversOffset (ranges : List (Nat × Nat)) (q : Nat) : Prop :=
  ∃ r ∈ ranges, r.1 ≤ q ∧ q < r.1 + r.2

theorem coversOffset_nil (q : Nat) : ¬ coversOffset [] q := by
  simp [coversOffset]

theorem coversOffset_cons (r : Nat × Nat) (rs : List (Nat × Nat)) (q : Nat) :
    coversOffset (r :: rs) q ↔ (r.1 ≤ q ∧ q < r.1 + r.2) ∨ coversOffset rs q := by
  simp [coversOffset, List.mem_cons, or_and_right, exists_or]

theorem coversOffset_append (rs ts : List (Nat × Nat)) (q : Nat) :
    coversOffset (rs ++ ts) q ↔ coversOffset rs q ∨ coversOffset ts q := by
  simp [coversOffset, List.mem_append, or_and_right, exists_or]

/-- The scan's final `bitmap_offset`: the starting one plus one step per bit. -/
theorem scanBits_endPos (d : Nat) (bits : List Bool) :
    ∀ (pos : Nat) (start : Option Nat),
      (scanBits d bits pos start).2 = pos + bits.length * d := by
  induction bits with
  | nil => intro pos start; cases start <;> simp [scanBits]
  | cons b rest ih =>
    intro pos start
    cases b with
    | true =>
      rw [show scanBits d (true :: rest) pos start =
            scanBits d rest (pos + d) (some (start.getD pos)) from by simp [scanBits]]
      rw [ih]
      simp [List.length_cons]
      ring
    | false =>
      cases start with
      | none =>
        rw [show scanBits d (false :: rest) pos none =
              scanBits d rest (pos + d) none from by simp [scanBits]]
        rw [ih]
        simp [List.length_cons]
        ring
      | some s =>
        rw [show scanBits d (false :: rest) pos (some s) =
              ((s, pos - s) :: (scanBits d rest (pos + d) none).1,
               (scanBits d rest (pos + d) none).2) from by simp [scanBits]]
        rw [ih]
        simp [List.length_cons]
        ring

theorem getD_cons_shift (b : Bool) (l : List Bool) (q pos : Nat) (h : pos < q) :
    (b :: l).getD (q - pos) false = l.getD (q - (pos + 1)) false := by
  have he : q - pos = (q - (pos + 1)) + 1 := by omega
  rw [he, List.getD_cons_succ]

/-- Coverage of the scan at unit granularity (one offset step per bit): an
offset `q` is inside an emitted range exactly when it indexes a set bit of the
scanned bit list, or lies in the still-pending range `[start, pos)`. -/
theorem scanBits_one_covers (bits : List Bool) :
    ∀ (pos : Nat) (start : Option Nat), (∀ s, start = some s → s ≤ pos) →
    ∀ q : Nat,
      coversOffset (scanBits 1 bits pos start).1 q ↔
        ((pos ≤ q ∧ q < pos + bits.length ∧ bits.getD (q - pos) false = true) ∨
         (∃ s, start = some s ∧ s ≤ q ∧ q < pos)) := by
  induction bits with
  | nil =>
    intro pos start hstart q
    cases start with
    | none => simp [scanBits, coversOffset]
    | some s =>
      have hs := hstart s rfl
      simp [scanBits, coversOffset]
      omega
  | cons b rest ih =>
    intro pos start hstart q
    cases b with
    | true =>
      rw [show (scanBits 1 (true :: rest) pos start).1 =
            (scanBits 1 rest (pos + 1) (some (start.getD pos))).1 from by
              simp [scanBits]]
      rw [ih (pos + 1) (some (start.getD pos))
            (by intro s hs
                cases start with
                | none => simp at hs; omega
                | some s0 =>
                  have := hstart s0 rfl
                  simp at hs
                  omega)
            q]
      cases start with
      | none =>
        simp only [Option.getD_none, Option.some.injEq, List.length_cons]
        constructor
        · rintro (⟨h1, h2, h3⟩ | ⟨s, rfl, h1, h2⟩)
          · refine Or.inl ⟨by omega, by omega, ?_⟩
            rw [getD_cons_shift _ _ _ _ (by omega)]
            exact h3
          · refine Or.inl ⟨by omega, by omega, ?_⟩
            have hq0 : q - pos = 0 := by omega
            rw [hq0]
            simp
        · rintro (⟨h1, h2, h3⟩ | ⟨s, hs, h1, h2⟩)
          · by_cases hq : q = pos
            · exact Or.inr ⟨pos, rfl, by omega, by omega⟩
            · refine Or.inl ⟨by omega, by omega, ?_⟩
              rw [getD_cons_shift _ _ _ _ (by omega)] at h3
              exact h3
          · exact absurd hs (by simp)
      | some s0 =>
        have hs0 := hstart s0 rfl
        simp only [Option.getD_some, Option.some.injEq, List.length_cons]
        constructor
        · rintro (⟨h1, h2, h3⟩ | ⟨s, rfl, h1, h2⟩)
          · refine Or.inl ⟨by omega, by omega, ?_⟩
            rw [getD_cons_shift _ _ _ _ (by omega)]
            exact h3
          · by_cases hq : q < pos
            · exact Or.inr ⟨s0, rfl, h1, hq⟩
            · refine Or.inl ⟨by omega, by omega, ?_⟩
              have hq0 : q - pos = 0 := by omega
              rw [hq0]
              simp
        · rintro (⟨h1, h2, h3⟩ | ⟨s, rfl, h1, h2⟩)
          · by_cases hq : q = pos
            · exact Or.inr ⟨s0, rfl, by omega, by omega⟩
            · refine Or.inl ⟨by omega, by omega, ?_⟩
              rw [getD_cons_shift _ _ _ _ (by omega)] at h3
              exact h3
          · exact Or.inr ⟨s0, rfl, h1, by omega⟩
    | false =>
      cases start with
      | none =>
        rw [show (scanBits 1 (false :: rest) pos none).1 =
              (scanBits 1 rest (pos + 1) none).1 from by simp [scanBits]]
        rw [ih (pos + 1) none (by simp) q]
        simp only [List.length_cons]
        constructor
        · rintro (⟨h1, h2, h3⟩ | ⟨s, hs, h1, h2⟩)
          · refine Or.inl ⟨by omega, by omega, ?_⟩
            rw [getD_cons_shift _ _ _ _ (by omega)]
            exact h3
          · exact absurd hs (by simp)
        · rintro (⟨h1, h2, h3⟩ | ⟨s, hs, h1, h2⟩)
          · by_cases hq : q = pos
            · have hq0 : q - pos = 0 := by omega
              rw [hq0] at h3
              simp at h3
            · refine Or.inl ⟨by omega, by omega, ?_⟩
              rw [getD_cons_shift _ _ _ _ (by omega)] at h3
              exact h3
          · exact absurd hs (by simp)
      | some s0 =>
        have hs0 := hstart s0 rfl
        rw [show (scanBits 1 (false :: rest) pos (some s0)).1 =
              (s0, pos - s0) :: (scanBits 1 rest (pos + 1) none).1 from by
                simp [scanBits]]
        rw [coversOffset_cons]
        rw [ih (pos + 1) none (by simp) q]
        simp only [List.length_cons, Option.some.injEq]
        constructor
        · rintro (⟨h1, h2⟩ | ⟨h1, h2, h3⟩ | ⟨s, hs, h1, h2⟩)
          · exact Or.inr ⟨s0, rfl, h1, by omega⟩
          · refine Or.inl ⟨by omega, by omega, ?_⟩
            rw [getD_cons_shift _ _ _ _ (by omega)]
            exact h3
          · exact absurd hs (by simp)
        · rintro (⟨h1, h2, h3⟩ | ⟨s, rfl, h1, h2⟩)
          · by_cases hq : q = pos
            · have hq0 : q - pos = 0 := by omega
              rw [hq0] at h3
              simp at h3
            · refine Or.inr (Or.inl ⟨by omega, by omega, ?_⟩)
              rw [getD_cons_shift _ _ _ _ (by omega)] at h3
              exact h3
          · exact Or.inl ⟨h1, by omega⟩

/-- The scan at granularity `d` equals the unit-granularity scan with all
offsets and lengths scaled by `d`. -/
theorem scanBits_scale (d : Nat) (bits : List Bool) :
    ∀ (p : Nat) (s0 : Option Nat),
      scanBits d bits (d * p) (s0.map (fun x => d * x)) =
        ((scanBits 1 bits p s0).1.map (fun ab => (d * ab.1, d * ab.2)),
         d * (scanBits 1 bits p s0).2) := by
  induction bits with
  | nil =>
    intro p s0
    cases s0 with
    | none => simp [scanBits]
    | some s => simp [scanBits, Nat.mul_sub]
  | cons b rest ih =>
    intro p s0
    cases b with
    | true =>
      rw [show scanBits d (true :: rest) (d * p) (s0.map (fun x => d * x)) =
            scanBits d rest (d * p + d)
              (some ((s0.map (fun x => d * x)).getD (d * p))) from by
            simp [scanBits]]
      rw [show scanBits 1 (true :: rest) p s0 =
            scanBits 1 rest (p + 1) (some (s0.getD p)) from by simp [scanBits]]
      have hgd : (s0.map (fun x => d * x)).getD (d * p) = d * s0.getD p := by
        cases s0 <;> simp
      rw [hgd, show d * p + d = d * (p + 1) from by ring,
          show some (d * s0.getD p) =
            (some (s0.getD p)).map (fun x => d * x) from by simp]
      exact ih (p + 1) (some (s0.getD p))
    | false =>
      cases s0 with
      | none =>
        rw [show scanBits d (false :: rest) (d * p) ((none : Option Nat).map (fun x => d * x)) =
              scanBits d rest (d * p + d) none from by simp [scanBits]]
        rw [show scanBits 1 (false :: rest) p none =
              scanBits 1 rest (p + 1) none from by simp [scanBits]]
        rw [show d * p + d = d * (p + 1) from by ring,
            show (none : Option Nat) =
              (none : Option Nat).map (fun x => d * x) from by simp]
        exact ih (p + 1) none
      | some s =>
        rw [show scanBits d (false :: rest) (d * p) ((some s).map (fun x => d * x)) =
              ((d * s, d * p - d * s) :: (scanBits d rest (d * p + d) none).1,
               (scanBits d rest (d * p + d) none).2) from by simp [scanBits]]
        rw [show scanBits 1 (false :: rest) p (some s) =
              ((s, p - s) :: (scanBits 1 rest (p + 1) none).1,
               (scanBits 1 rest (p + 1) none).2) from by simp [scanBits]]
        have hrec := ih (p + 1) none
        rw [show Option.map (fun x => d * x) (none : Option Nat) = none from by
              simp] at hrec
        rw [show d * p + d = d * (p + 1) from by ring, hrec]
        simp [Nat.mul_sub]

/-- The ranges the bitmap scan computes over a list of (data, size) cluster
blocks: each block scanned from a fresh pending start, `bitmap_offset` carried
across blocks (the pure content of `read_bitmap_scan` on well-formed blocks). -/
def scanPairsRanges (d : Nat) : List ((Nat → Nat) × Nat) → Nat → List (Nat × Nat)
  | [], _ => []
  | pr :: rest, pos =>
    (scanBits d (clusterBlockBits pr.1 pr.2) pos none).1 ++
      scanPairsRanges d rest (scanBits d (clusterBlockBits pr.1 pr.2) pos none).2

/-- All scanned bits, blocks in order. -/
def pairsBits (pairs : List ((Nat → Nat) × Nat)) : List Bool :=
  pairs.flatMap (fun pr => clusterBlockBits pr.1 pr.2)

/-- Unit-granularity coverage over a whole block list: an offset is covered
exactly when it indexes a set bit of the concatenated bit sequence. -/
theorem scanPairsRanges_one_covers (pairs : List ((Nat → Nat) × Nat)) :
    ∀ (pos q : Nat),
      coversOffset (scanPairsRanges 1 pairs pos) q ↔
        (pos ≤ q ∧ q < pos + (pairsBits pairs).length ∧
         (pairsBits pairs).getD (q - pos) false = true) := by
  induction pairs with
  | nil =>
    intro pos q
    simp [scanPairsRanges, coversOffset, pairsBits]
  | cons pr rest ih =>
    intro pos q
    rw [show scanPairsRanges 1 (pr :: rest) pos =
          (scanBits 1 (clusterBlockBits pr.1 pr.2) pos none).1 ++
            scanPairsRanges 1 rest
              (scanBits 1 (clusterBlockBits pr.1 pr.2) pos none).2 from rfl]
    rw [coversOffset_append, scanBits_endPos,
        scanBits_one_covers (clusterBlockBits pr.1 pr.2) pos none (by simp) q, ih]
    rw [show pairsBits (pr :: rest) =
          clusterBlockBits pr.1 pr.2 ++ pairsBits rest from by
            simp [pairsBits]]
    simp only [Nat.mul_one, List.length_append]
    constructor
    · rintro ((⟨h1, h2, h3⟩ | ⟨s, hs, _, _⟩) | ⟨h1, h2, h3⟩)
      · refine ⟨by omega, by omega, ?_⟩
        rw [List.getD_append _ _ _ _ (by omega)]
        exact h3
      · exact absurd hs (by simp)
      · refine ⟨by omega, by omega, ?_⟩
        rw [List.getD_append_right _ _ _ _ (by omega)]
        rw [show q - pos - (clusterBlockBits pr.1 pr.2).length =
              q - (pos + (clusterBlockBits pr.1 pr.2).length) from by omega]
        exact h3
    · rintro ⟨h1, h2, h3⟩
      by_cases hq : q - pos < (clusterBlockBits pr.1 pr.2).length
      · refine Or.inl (Or.inl ⟨by omega, by omega, ?_⟩)
        rw [List.getD_append _ _ _ _ (by omega)] at h3
        exact h3
      · refine Or.inr ⟨by omega, by omega, ?_⟩
        rw [List.getD_append_right _ _ _ _ (by omega)] at h3
        rw [show q - pos - (clusterBlockBits pr.1 pr.2).length =
              q - (pos + (clusterBlockBits pr.1 pr.2).length) from by omega] at h3
        exact h3

/-- Block-list scan at granularity `d` equals the unit-granularity scan with
all offsets and lengths scaled by `d`. -/
theorem scanPairsRanges_scale (d : Nat) (pairs : List ((Nat → Nat) × Nat)) :
    ∀ p : Nat,
      scanPairsRanges d pairs (d * p) =
        (scanPairsRanges 1 pairs p).map (fun ab => (d * ab.1, d * ab.2)) := by
  induction pairs with
  | nil => intro p; simp [scanPairsRanges]
  | cons pr rest ih =>
    intro p
    have hsc := scanBits_scale d (clusterBlockBits pr.1 pr.2) p none
    rw [show Option.map (fun x => d * x) (none : Option Nat) = none from by
          simp] at hsc
    rw [show scanPairsRanges d (pr :: rest) (d * p) =
          (scanBits d (clusterBlockBits pr.1 pr.2) (d * p) none).1 ++
            scanPairsRanges d rest
              (scanBits d (clusterBlockBits pr.1 pr.2) (d * p) none).2 from rfl]
    rw [hsc]
    rw [show scanPairsRanges 1 (pr :: rest) p =
          (scanBits 1 (clusterBlockBits pr.1 pr.2) p none).1 ++
            scanPairsRanges 1 rest
              (scanBits 1 (clusterBlockBits pr.1 pr.2) p none).2 from rfl]
    simp only [ih]
    simp [List.map_append]

/-- Membership in scaled ranges at a scaled offset is membership in the
original ranges at the original offset. -/
theorem coversOffset_map_scale (d : Nat) (hd : 0 < d) (rs : List (Nat × Nat)) :
    ∀ p : Nat,
      coversOffset (rs.map (fun ab => (d * ab.1, d * ab.2))) (d * p) ↔
        coversOffset rs p := by
  induction rs with
  | nil => intro p; simp [coversOffset]
  | cons r rest ih =>
    intro p
    rw [List.map_cons, coversOffset_cons, coversOffset_cons, ih]
    have h1 : d * r.1 ≤ d * p ↔ r.1 ≤ p := mul_le_mul_left hd
    have h2 : d * p < d * r.1 + d * r.2 ↔ p < r.1 + r.2 := by
      rw [← Nat.mul_add]
      exact mul_lt_mul_left hd
    rw [h1, h2]

/-- On well-formed blocks (present, with data, word-aligned size within
SSIZE_MAX) the per-block loop succeeds and computes exactly the
coalesced ranges. -/
theorem read_bitmap_scan_pairs_ok (d : Nat) (pairs : List ((Nat → Nat) × Nat)) :
    ∀ pos : Nat, (∀ pr ∈ pairs, pr.2 % 4 = 0 ∧ pr.2 ≤ SSIZE_MAX) →
      read_bitmap_scan d (pairs.map (fun pr => Except.ok (some ⟨some pr.1, pr.2⟩)))
          pos = Except.ok (scanPairsRanges d pairs pos) := by
  induction pairs with
  | nil => intro pos _; simp [read_bitmap_scan, scanPairsRanges]
  | cons pr rest ih =>
    intro pos hwf
    have h0 := hwf pr (List.mem_cons_self pr rest)
    simp only [List.map_cons, read_bitmap_scan, h0.1, Nat.not_lt.mpr h0.2, ne_eq,
      not_true_eq_false, false_or, or_self, if_false, ite_false]
    rw [ih _ (fun b hb => hwf b (List.mem_cons_of_mem _ hb))]
    rfl

/-- Whenever every block is present with data but some block's size is not a
multiple of 4, the per-block loop fails with the out-of-bounds error (blocks
before the offending one either pass the size check or fail it with the same
error code). -/
theorem read_bitmap_scan_bad_size (d : Nat)
    (blocks : List (Except ErrChain (Option ClusterBlock))) :
    ∀ pos : Nat,
      (∀ b ∈ blocks, ∃ cb : ClusterBlock, b = Except.ok (some cb) ∧ cb.data.isSome) →
      (∃ b ∈ blocks, ∃ cb : ClusterBlock,
        b = Except.ok (some cb) ∧ cb.data_size % 4 ≠ 0) →
      read_bitmap_scan d blocks pos =
        Except.error [LibcError.runtimeValueOutOfBounds] := by
  induction blocks with
  | nil => intro pos _ hbad; simp at hbad
  | cons b rest ih =>
    intro pos hpres hbad
    obtain ⟨cb, hb, hdata⟩ := hpres b (List.mem_cons_self b rest)
    obtain ⟨dat, hdat⟩ := Option.isSome_iff_exists.mp hdata
    subst hb
    by_cases h4 : cb.data_size % 4 = 0
    · by_cases hmax : cb.data_size ≤ SSIZE_MAX
      · have hbadrest : ∃ b2 ∈ rest, ∃ cb2 : ClusterBlock,
            b2 = Except.ok (some cb2) ∧ cb2.data_size % 4 ≠ 0 := by
          rcases hbad with ⟨b2, hb2, cb2, hcb2, hsz⟩
          rcases List.mem_cons.mp hb2 with heq | hmem
          · exfalso
            rw [heq] at hcb2
            have hcc : cb = cb2 := by
              injection hcb2 with h1
              injection h1
            rw [← hcc] at hsz
            exact hsz h4
          · exact ⟨b2, hmem, cb2, hcb2, hsz⟩
        simp only [read_bitmap_scan, hdat, h4, Nat.not_lt.mpr hmax, ne_eq,
          not_true_eq_false, false_or, or_self, if_false, ite_false]
        rw [ih _ (fun x hx => hpres x (List.mem_cons_of_mem _ hx)) hbadrest]
      · have hgt : SSIZE_MAX < cb.data_size := by omega
        simp [read_bitmap_scan, hdat, hgt]
    · simp [read_bitmap_scan, hdat, h4]

/-- Claim C6 (counterexample): a block whose data size is 2^63 — a multiple of
4 — does not let the scan run to completion: the same out-of-bounds check also
rejects sizes above SSIZE_MAX, so `read_bitmap` fails although every scanned
block's size is a multiple of 4. -/
theorem claim_C6_counterexample :
    ((2 : Nat) ^ 63 % 4 = 0) ∧
    libfsntfs_file_system_read_bitmap
        ⟨Except.ok (some ⟨some ⟨0⟩, 0⟩), Except.ok Unit.unit, Except.ok Unit.unit,
         [Except.ok (some ⟨some (fun _ => 0), 2 ^ 63⟩)]⟩
        (some ⟨some ⟨16⟩, none⟩) (some ⟨1024, 4096⟩) =
      (Except.error [LibcError.runtimeValueOutOfBounds], some ⟨some ⟨16⟩, none⟩) := by
  constructor
  · norm_num
  · have hscan : read_bitmap_scan 4096
        [Except.ok (some ⟨some (fun _ => 0), 2 ^ 63⟩)] 0 =
        Except.error [LibcError.runtimeValueOutOfBounds] := by
      simp only [read_bitmap_scan]
      rw [if_pos (Or.inr (by norm_num [SSIZE_MAX]))]
    simp only [libfsntfs_file_system_read_bitmap, hscan]

/-- Claim C6 (amended): `read_bitmap` fails with the corrupt-bitmap
(out-of-bounds) error whenever some cluster block's data size is not a
multiple of 4 (all blocks being present with data); and when every scanned
block is present with data, its size a multiple of 4 AND at most SSIZE_MAX,
the scan runs to completion over all cluster blocks and the call succeeds. -/
theorem claim_C6_read_bitmap_alignment (env : BitmapEnv) (fs : FileSystem)
    (io : IoHandle) (entry : MftEntry) (attr : MftAttribute)
    (h6 : env.getMftEntry6 = Except.ok (some entry))
    (hattr : entry.data_attribute = some attr)
    (hvec : env.vectorInit = Except.ok Unit.unit)
    (hnum : env.getNumberOfElements = Except.ok Unit.unit) :
    ((∀ b ∈ env.blocks, ∃ cb : ClusterBlock,
        b = Except.ok (some cb) ∧ cb.data.isSome) →
     (∃ b ∈ env.blocks, ∃ cb : ClusterBlock,
        b = Except.ok (some cb) ∧ cb.data_size % 4 ≠ 0) →
     libfsntfs_file_system_read_bitmap env (some fs) (some io) =
       (Except.error [LibcError.runtimeValueOutOfBounds], some fs)) ∧
    (∀ pairs : List ((Nat → Nat) × Nat),
      env.blocks = pairs.map (fun pr => Except.ok (some ⟨some pr.1, pr.2⟩)) →
      (∀ pr ∈ pairs, pr.2 % 4 = 0 ∧ pr.2 ≤ SSIZE_MAX) →
      libfsntfs_file_system_read_bitmap env (some fs) (some io) =
        (Except.ok Unit.unit, some fs)) := by
  constructor
  · intro hpres hbad
    have hscan := read_bitmap_scan_bad_size io.cluster_block_size env.blocks 0 hpres hbad
    simp only [libfsntfs_file_system_read_bitmap, h6, hattr, hvec, hnum, hscan]
  · intro pairs hblocks hwf
    have hscan := read_bitmap_scan_pairs_ok io.cluster_block_size pairs 0 hwf
    rw [← hblocks] at hscan
    simp only [libfsntfs_file_system_read_bitmap, h6, hattr, hvec, hnum, hscan]

/-- Witness for C6's amended theorem at concrete inputs: a scan over a single
5-byte block (size not a multiple of 4) fails with the out-of-bounds error,
and a scan over a single well-formed 4-byte block succeeds. -/
theorem claim_C6_read_bitmap_alignment_witness :
    (libfsntfs_file_system_read_bitmap
        ⟨Except.ok (some ⟨some ⟨0⟩, 0⟩), Except.ok Unit.unit, Except.ok Unit.unit,
         [Except.ok (some ⟨some (fun _ => 0), 5⟩)]⟩
        (some ⟨some ⟨16⟩, none⟩) (some ⟨1024, 4096⟩) =
      (Except.error [LibcError.runtimeValueOutOfBounds], some ⟨some ⟨16⟩, none⟩)) ∧
    (libfsntfs_file_system_read_bitmap
        ⟨Except.ok (some ⟨some ⟨0⟩, 0⟩), Except.ok Unit.unit, Except.ok Unit.unit,
         [Except.ok (some ⟨some (fun _ => 6), 4⟩)]⟩
        (some ⟨some ⟨16⟩, none⟩) (some ⟨1024, 4096⟩) =
      (Except.ok Unit.unit, some ⟨some ⟨16⟩, none⟩)) := by
  constructor
  · exact (claim_C6_read_bitmap_alignment
      ⟨Except.ok (some ⟨some ⟨0⟩, 0⟩), Except.ok Unit.unit, Except.ok Unit.unit,
       [Except.ok (some ⟨some (fun _ => 0), 5⟩)]⟩
      ⟨some ⟨16⟩, none⟩ ⟨1024, 4096⟩ ⟨some ⟨0⟩, 0⟩ ⟨0⟩ rfl rfl rfl rfl).1
      (by intro b hb
          simp only [List.mem_singleton] at hb
          exact ⟨⟨some (fun _ => 0), 5⟩, hb, rfl⟩)
      ⟨Except.ok (some ⟨some (fun _ => 0), 5⟩), List.mem_singleton.mpr rfl,
       ⟨some (fun _ => 0), 5⟩, rfl, by norm_num⟩
  · exact (claim_C6_read_bitmap_alignment
      ⟨Except.ok (some ⟨some ⟨0⟩, 0⟩), Except.ok Unit.unit, Except.ok Unit.unit,
       [Except.ok (some ⟨some (fun _ => 6), 4⟩)]⟩
      ⟨some ⟨16⟩, none⟩ ⟨1024, 4096⟩ ⟨some ⟨0⟩, 0⟩ ⟨0⟩ rfl rfl rfl rfl).2
      [(fun _ => 6, 4)] rfl
      (by intro pr hpr
          simp only [List.mem_singleton] at hpr
          rw [hpr]
          exact ⟨rfl, by norm_num [SSIZE_MAX]⟩)

/-- Claim C7: a successful `read_bitmap` is side-effect-free on the facade:
the call returns the plain success unit and leaves the facade state exactly
as it was (no ranges are returned and no field is written), while the scan it
performs computes — and drops — the coalesced ranges, whose meaning is: byte
offset `cluster_block_size * j` is inside some computed range exactly when bit
`j` of the bitmap (bit k of little-endian 32-bit word w at global bit index
32*w + k, i.e. cluster 32*w + k) is set. -/
theorem claim_C7_read_bitmap_no_commit (env : BitmapEnv) (fs : FileSystem)
    (io : IoHandle) (entry : MftEntry) (attr : MftAttribute)
    (pairs : List ((Nat → Nat) × Nat))
    (h6 : env.getMftEntry6 = Except.ok (some entry))
    (hattr : entry.data_attribute = some attr)
    (hvec : env.vectorInit = Except.ok Unit.unit)
    (hnum : env.getNumberOfElements = Except.ok Unit.unit)
    (hblocks : env.blocks = pairs.map (fun pr => Except.ok (some ⟨some pr.1, pr.2⟩)))
    (hwf : ∀ pr ∈ pairs, pr.2 % 4 = 0 ∧ pr.2 ≤ SSIZE_MAX)
    (hd : 0 < io.cluster_block_size) :
    (libfsntfs_file_system_read_bitmap env (some fs) (some io) =
      (Except.ok Unit.unit, some fs)) ∧
    (read_bitmap_scan io.cluster_block_size env.blocks 0 =
      Except.ok (scanPairsRanges io.cluster_block_size pairs 0)) ∧
    (∀ j : Nat, j < (pairsBits pairs).length →
      (coversOffset (scanPairsRanges io.cluster_block_size pairs 0)
          (io.cluster_block_size * j) ↔ (pairsBits pairs).getD j false = true)) := by
  have hscan := read_bitmap_scan_pairs_ok io.cluster_block_size pairs 0 hwf
  rw [← hblocks] at hscan
  refine ⟨?_, hscan, ?_⟩
  · simp only [libfsntfs_file_system_read_bitmap, h6, hattr, hvec, hnum, hscan]
  · intro j hj
    have hscale : scanPairsRanges io.cluster_block_size pairs 0 =
        (scanPairsRanges 1 pairs 0).map
          (fun ab => (io.cluster_block_size * ab.1, io.cluster_block_size * ab.2)) := by
      have h := scanPairsRanges_scale io.cluster_block_size pairs 0
      rw [Nat.mul_zero] at h
      exact h
    rw [hscale, coversOffset_map_scale _ hd _ j,
        scanPairsRanges_one_covers pairs 0 j]
    constructor
    · rintro ⟨_, _, h⟩
      rw [Nat.sub_zero] at h
      exact h
    · intro h
      exact ⟨Nat.zero_le j, by omega, by rw [Nat.sub_zero]; exact h⟩

/-- Witness for C7 at a concrete input: one 4-byte bitmap block with word
value 6 (bits 1 and 2 set); the call succeeds and the facade is unchanged. -/
theorem claim_C7_read_bitmap_no_commit_witness :
    libfsntfs_file_system_read_bitmap
        ⟨Except.ok (some ⟨some ⟨0⟩, 6⟩), Except.ok Unit.unit, Except.ok Unit.unit,
         [Except.ok (some ⟨some (fun _ => 6), 4⟩)]⟩
        (some ⟨some ⟨16⟩, none⟩) (some ⟨1024, 4096⟩) =
      (Except.ok Unit.unit, some ⟨some ⟨16⟩, none⟩) :=
  (claim_C7_read_bitmap_no_commit
    ⟨Except.ok (some ⟨some ⟨0⟩, 6⟩), Except.ok Unit.unit, Except.ok Unit.unit,
     [Except.ok (some ⟨some (fun _ => 6), 4⟩)]⟩
    ⟨some ⟨16⟩, none⟩ ⟨1024, 4096⟩ ⟨some ⟨0⟩, 6⟩ ⟨0⟩ [(fun _ => 6, 4)]
    rfl rfl rfl rfl rfl
    (by intro pr hpr
        simp only [List.mem_singleton] at hpr
        rw [hpr]
        exact ⟨rfl, by norm_num [SSIZE_MAX]⟩)
    (by norm_num)).1
